import Mathlib

/-!
Shallow embedding of the sassy-nanny booking server (src/server.js, both
variants separated by the document marker, and src/unnamed/part_000).

The server is an Express app over MongoDB.  We embed each HTTP handler as a
pure function from an explicit server state (the persisted collections plus
the in-memory `adminConfig` cache and the derived mail `transporter`) and the
request data to the successor state, the list of mail-send attempts made, and
the HTTP response.  External effects (the PayPal capture call, the Stripe
intent call, mail-send success or failure) are passed in as oracle
parameters, since the code only branches on their observable outcomes.

JavaScript conventions embedded explicitly:
  * a possibly-absent string (an unset `process.env` variable, a missing
    request-body field, an unset mongoose String field) is `Option String`,
    with `none` for `undefined`;
  * string truthiness: `undefined` and `""` are falsy, everything else truthy;
  * `a || b` on strings returns `a` when truthy, else `b`;
  * accessing a method such as `.toUpperCase()` on `undefined` throws a
    TypeError, embedded as `Except`.
-/

namespace SassyNanny

/-- JS falsiness of a possibly-undefined string: `undefined` and `""`. -/
def optFalsy : Option String → Bool
  | none => true
  | some s => s = ""

/-- JS `a || b` where `a` is a config string (`""` when unset) and `b` a
possibly-undefined environment variable. -/
def jsOr (a : String) (b : Option String) : Option String :=
  if a = "" then b else some a

/-- JS `Math.round`: round half toward positive infinity, i.e. the floor of
`x + 1/2` (stated on exact rationals). -/
def jsRound (q : ℚ) : ℤ :=
  (q + 1/2).floor

/-- JS `x.toUpperCase()` on a possibly-undefined string: throws a TypeError
when the receiver is `undefined`. -/
def jsToUpperCase : Option String → Except String String
  | none => .error "TypeError: cannot read toUpperCase of undefined"
  | some s => .ok s.toUpper

/-- Render an interpolated, possibly-undefined string inside a template
literal: JS prints `undefined`. -/
def tmpl : Option String → String
  | none => "undefined"
  | some s => s

/-- The `AdminConfig` mongoose document / the in-memory `adminConfig` cache.
A field never supplied is `""` (both `""` and `undefined` are falsy, and the
code only tests truthiness or interpolates these fields). -/
structure AdminConfigRec where
  paypalClientId : String
  paypalSecret : String
  stripeSecretKey : String
  stripePublishableKey : String
  adminEmail : String
  gmailUser : String
  gmailAppPass : String
  deriving Repr, DecidableEq

/-- The initial all-empty `adminConfig` global. -/
def emptyAdminConfig : AdminConfigRec :=
  ⟨"", "", "", "", "", "", ""⟩

/-- A `Booking` mongoose document.  All schema fields are optional except
`status`, which mongoose defaults to `"Pending"` when absent. -/
structure Booking where
  name : Option String
  email : Option String
  children : Option String
  price : Option ℚ
  day : Option String
  time : Option String
  service : Option String
  paymentMethod : Option String
  paymentId : Option String
  status : String
  deriving Repr, DecidableEq

/-- The JSON body of `POST /api/bookings` (and the `bookingData` object of
the capture endpoint): every field the client may supply. -/
structure BookingBody where
  name : Option String := none
  email : Option String := none
  children : Option String := none
  price : Option ℚ := none
  day : Option String := none
  time : Option String := none
  service : Option String := none
  paymentMethod : Option String := none
  paymentId : Option String := none
  status : Option String := none
  deriving Repr, DecidableEq

/-- `new Booking(req.body)`: copy the supplied fields; `status` defaults to
`"Pending"` when the client did not supply one. -/
def mkBooking (b : BookingBody) : Booking :=
  { name := b.name, email := b.email, children := b.children, price := b.price,
    day := b.day, time := b.time, service := b.service,
    paymentMethod := b.paymentMethod, paymentId := b.paymentId,
    status := b.status.getD "Pending" }

/-- A `Blog` mongoose document. -/
structure Blog where
  title : Option String
  content : Option String
  deriving Repr, DecidableEq

/-- The JSON body of `POST /api/admin/config`. -/
structure ConfigBody where
  password : Option String := none
  paypalClientId : Option String := none
  paypalSecret : Option String := none
  stripeSecretKey : Option String := none
  stripePublishableKey : Option String := none
  adminEmail : Option String := none
  gmailUser : Option String := none
  gmailAppPass : Option String := none
  deriving Repr, DecidableEq

/-- `new AdminConfig(req.body)`: fields absent from the body stay unset. -/
def mkConfig (b : ConfigBody) : AdminConfigRec :=
  { paypalClientId := b.paypalClientId.getD "",
    paypalSecret := b.paypalSecret.getD "",
    stripeSecretKey := b.stripeSecretKey.getD "",
    stripePublishableKey := b.stripePublishableKey.getD "",
    adminEmail := b.adminEmail.getD "",
    gmailUser := b.gmailUser.getD "",
    gmailAppPass := b.gmailAppPass.getD "" }

/-- The nodemailer transport derived from gmail credentials. -/
structure MailAuth where
  user : String
  pass : String
  deriving Repr, DecidableEq

/-- `process.env`: each variable possibly unset. -/
structure Env where
  adminPassword : Option String
  paypalClientId : Option String
  paypalSecret : Option String
  deriving Repr, DecidableEq

/-- The server's observable state: the persisted `bookings`, `blogs` and
`adminconfig` collections, the in-memory `adminConfig` cache and the derived
`transporter`. -/
structure ServerState where
  bookings : List Booking
  blogs : List Blog
  configDB : List AdminConfigRec
  adminConfig : AdminConfigRec
  transporter : Option MailAuth
  deriving Repr, DecidableEq

/-- `updateTransporter()` (src/server.js:40-47, 256-269; part_000:55-62):
rebuild the transport only when both gmail credentials are truthy; otherwise
the previously derived transport (or `null`) is left in place. -/
def updateTransporter (cfg : AdminConfigRec) (old : Option MailAuth) :
    Option MailAuth :=
  if cfg.gmailUser ≠ "" ∧ cfg.gmailAppPass ≠ "" then
    some ⟨cfg.gmailUser, cfg.gmailAppPass⟩
  else
    old

/-- `paypalEnvironment()` (src/server.js:272-277; part_000:65-70): config
credentials, falling back to the environment variables; `null` when either
resolved credential is falsy. -/
def paypalEnvironment (env : Env) (cfg : AdminConfigRec) :
    Option (String × String) :=
  let clientId := jsOr cfg.paypalClientId env.paypalClientId
  let clientSecret := jsOr cfg.paypalSecret env.paypalSecret
  if optFalsy clientId || optFalsy clientSecret then none
  else some (clientId.getD "", clientSecret.getD "")

/-- A mail message handed to `transporter.sendMail`. -/
structure Mail where
  fromAddr : String
  toAddr : Option String
  subject : String
  deriving Repr, DecidableEq

/-- Outcome of one `transporter.sendMail` call, driven by an oracle flag for
whether the provider fails this send. -/
def attemptSend (fails : Bool) : Except String Unit :=
  if fails then .error "send failed" else .ok ()

/-- The customer mail of the first `sendEmails` variant
(src/server.js:184-189). -/
def customerMailA (cfg : AdminConfigRec) (b : Booking) : Mail :=
  { fromAddr := cfg.gmailUser, toAddr := b.email,
    subject := "Booking Confirmed - " ++ tmpl b.service }

/-- The admin mail of the first `sendEmails` variant
(src/server.js:191-196). -/
def adminMailA (cfg : AdminConfigRec) (b : Booking) : Mail :=
  { fromAddr := cfg.gmailUser, toAddr := some cfg.adminEmail,
    subject := "NEW BOOKING: " ++ tmpl b.service }

/-- `sendEmails(booking)`, first variant (src/server.js:181-200): skip when
there is no transporter or no admin address; otherwise attempt the customer
mail then the admin mail, each `sendMail` wrapped in its own try/catch so a
failed send is swallowed.  Returns the list of attempted sends in order. -/
def sendEmailsA (cfg : AdminConfigRec) (transporter : Option MailAuth)
    (b : Booking) (failCustomer failAdmin : Bool) : List Mail :=
  match transporter with
  | none => []
  | some _ =>
    if cfg.adminEmail = "" then []
    else
      let customer := customerMailA cfg b
      let admin := adminMailA cfg b
      let _r1 := attemptSend failCustomer
      let _r2 := attemptSend failAdmin
      [customer, admin]

/-- The customer mail of the second `sendEmails` variant
(src/server.js:463-475). -/
def customerMailB (cfg : AdminConfigRec) (b : Booking) : Mail :=
  { fromAddr := "\"Sassy Nanny\" <" ++ cfg.gmailUser ++ ">", toAddr := b.email,
    subject := "Booking Confirmed - " ++ tmpl b.service }

/-- The admin mail of the second `sendEmails` variant
(src/server.js:477-491); its html interpolates
`booking.paymentMethod.toUpperCase()`, whose already-computed value is taken
as an argument here. -/
def adminMailB (cfg : AdminConfigRec) (b : Booking) (_pmUpper : String) :
    Mail :=
  { fromAddr := "\"New Booking\" <" ++ cfg.gmailUser ++ ">",
    toAddr := some cfg.adminEmail,
    subject := "NEW BOOKING: " ++ tmpl b.service }

/-- `sendEmails(booking)`, second variant (src/server.js:457-506, and
part_000:273-307 up to field order): skip when there is no transporter,
gmail user or admin address; otherwise build the customer mail, then the
admin mail — whose template evaluates `booking.paymentMethod.toUpperCase()`
and therefore throws when `paymentMethod` is `undefined` — then attempt each
send inside its own try/catch.  `Except.error` is a thrown JS exception
propagating to the caller. -/
def sendEmailsB (cfg : AdminConfigRec) (transporter : Option MailAuth)
    (b : Booking) (failCustomer failAdmin : Bool) :
    Except String (List Mail) :=
  match transporter with
  | none => .ok []
  | some _ =>
    if cfg.gmailUser = "" ∨ cfg.adminEmail = "" then .ok []
    else do
      let customer := customerMailB cfg b
      let pmUpper ← jsToUpperCase b.paymentMethod
      let admin := adminMailB cfg b pmUpper
      let _r1 := attemptSend failCustomer
      let _r2 := attemptSend failAdmin
      .ok [customer, admin]

/-- JSON payloads the handlers answer with. -/
inductive RespBody where
  | booking (b : Booking)
  | successTrue
  | captureSuccess (status : String)
  | clientSecret (s : String)
  | config (c : AdminConfigRec)
  deriving Repr, DecidableEq

/-- An HTTP response: a 200 `res.json(...)` or a `res.status(code).json(...)`
error with the message passed through. -/
inductive Resp where
  | ok (body : RespBody)
  | err (code : Nat) (msg : String)
  deriving Repr, DecidableEq

/-- `GET /api/admin/config` (src/server.js:142-144, 354; part_000:163-165):
no check of any kind, answers the whole in-memory cache. -/
def getAdminConfigHandler (s : ServerState) : ServerState × Resp :=
  (s, .ok (.config s.adminConfig))

/-- `POST /api/admin/config` (src/server.js:146-158, 356-366;
part_000:167-179): 403 unless the body password equals the admin password;
otherwise `deleteMany` then `save` (the collection becomes exactly the new
record), replace the cache, and run `updateTransporter`. -/
def postAdminConfigHandler (env : Env) (s : ServerState) (body : ConfigBody) :
    ServerState × Resp :=
  if body.password ≠ env.adminPassword then
    (s, .err 403 "Wrong password")
  else
    let cfg := mkConfig body
    ({ s with configDB := [cfg], adminConfig := cfg,
              transporter := updateTransporter cfg s.transporter },
     .ok .successTrue)

/-- `DELETE /api/bookings/:id` (src/server.js:122-129, 346-351;
part_000:153-160): 403 unless the password matches, else
`findByIdAndDelete`, embedded as erasing the record the id designates (a
position in the list; erasing out of range, an unknown id, is a no-op). -/
def deleteBookingHandler (env : Env) (s : ServerState) (bid : Nat)
    (password : Option String) : ServerState × Resp :=
  if password ≠ env.adminPassword then
    (s, .err 403 "Wrong password")
  else
    ({ s with bookings := s.bookings.eraseIdx bid }, .ok .successTrue)

/-- `DELETE /api/blogs/:id` (src/server.js:107-114, 321-326;
part_000:128-135), same shape as booking deletion. -/
def deleteBlogHandler (env : Env) (s : ServerState) (bid : Nat)
    (password : Option String) : ServerState × Resp :=
  if password ≠ env.adminPassword then
    (s, .err 403 "Wrong password")
  else
    ({ s with blogs := s.blogs.eraseIdx bid }, .ok .successTrue)

/-- `POST /api/bookings` (src/server.js:131-139; part_000:143-151,
src/server.js:334-344): save `new Booking(req.body)` unconditionally, then
`await sendEmails(booking)` unless `req.body.paymentMethod` is
`'paypal'` (an absent method is not `'paypal'`, so it mails too).  Uses the
first `sendEmails` variant, the one at src/server.js:181-200.  Returns the
new state, the attempted sends and the response. -/
def postBookingsHandler (s : ServerState) (body : BookingBody)
    (failCustomer failAdmin : Bool) : ServerState × List Mail × Resp :=
  let booking := mkBooking body
  let s1 := { s with bookings := s.bookings ++ [booking] }
  let attempts :=
    if body.paymentMethod ≠ some "paypal" then
      sendEmailsA s.adminConfig s.transporter booking failCustomer failAdmin
    else []
  (s1, attempts, .ok (.booking booking))

/-- Outcome of `stripe.paymentIntents.create` / `client.execute`, as the
code observes it: a resolved value or a thrown error. -/
inductive ProviderOutcome where
  | ok (value : String)
  | err (msg : String)
  deriving Repr, DecidableEq

/-- `POST /api/payment/stripe` (src/server.js:161-178, 369-384;
part_000:182-199): 400 when no secret key is cached; otherwise the intent is
requested with `amount: Math.round(amount * 100)` — no validation of the
amount happens first.  The first component is the minor-unit amount the
processor was asked for (`none` when no request was made). -/
def stripeHandler (s : ServerState) (amount : ℚ)
    (outcome : ProviderOutcome) : Option ℤ × Resp :=
  if s.adminConfig.stripeSecretKey = "" then
    (none, .err 400 "Stripe not set")
  else
    let minor := jsRound (amount * 100)
    match outcome with
    | .ok secret => (some minor, .ok (.clientSecret secret))
    | .err m => (some minor, .err 500 m)

/-- The booking the capture endpoint persists:
`new Booking({ ...bookingData, paymentId: orderID, status: 'Paid' })` —
the spread's `paymentId` and `status` override anything client-supplied. -/
def captureBooking (bd : BookingBody) (orderID : String) : Booking :=
  { mkBooking bd with paymentId := some orderID, status := "Paid" }

/-- `POST /api/payment/paypal/capture` (src/server.js:413-441): reject a
falsy `orderID` with 400; reject an unconfigured PayPal environment with
400; then execute the capture, whose outcome the provider oracle supplies.
A thrown provider error lands in the catch → 500.  On `status ===
'COMPLETED'`: when `bookingData` was sent, save the booking as Paid with
`paymentId = orderID` and run the second `sendEmails` variant — a throw
inside it (missing `paymentMethod`) is caught by the same catch block, after
the save; then answer success.  Any other status → 400, nothing saved. -/
def captureHandler (env : Env) (s : ServerState) (orderID : Option String)
    (bookingData : Option BookingBody) (outcome : ProviderOutcome)
    (failCustomer failAdmin : Bool) : ServerState × List Mail × Resp :=
  if optFalsy orderID then
    (s, [], .err 400 "Missing order ID")
  else
    match paypalEnvironment env s.adminConfig with
    | none => (s, [], .err 400 "PayPal not configured")
    | some _ =>
      match outcome with
      | .err m => (s, [], .err 500 m)
      | .ok status =>
        if status = "COMPLETED" then
          match bookingData with
          | some bd =>
            let oid := orderID.getD ""
            let booking := captureBooking bd oid
            let s1 := { s with bookings := s.bookings ++ [booking] }
            match sendEmailsB s.adminConfig s.transporter booking
                failCustomer failAdmin with
            | .ok attempts => (s1, attempts, .ok (.captureSuccess status))
            | .error m => (s1, [], .err 500 m)
          | none => (s, [], .ok (.captureSuccess status))
        else
          (s, [], .err 400 "Payment not completed")

/-!
Concrete fixtures used to instantiate the theorems below: a deployment
environment, configurations, server states and request bodies.
-/

/-- A deployment with `ADMIN_PASSWORD=s3cret` and no PayPal fallback
variables. -/
def envW : Env := ⟨some "s3cret", none, none⟩

/-- The transport derived from the gmail credentials of `mailCfgW`. -/
def mailAuthW : MailAuth := ⟨"old@gmail.com", "oldpass"⟩

/-- A configuration with working mail settings. -/
def mailCfgW : AdminConfigRec :=
  { emptyAdminConfig with
      gmailUser := "old@gmail.com", gmailAppPass := "oldpass",
      adminEmail := "op@x.com" }

/-- A configuration with PayPal credentials. -/
def paypalCfgW : AdminConfigRec :=
  { emptyAdminConfig with paypalClientId := "cid", paypalSecret := "psec" }

/-- A fresh server: nothing stored, nothing configured. -/
def stateW : ServerState := ⟨[], [], [], emptyAdminConfig, none⟩

/-- A server whose stored configuration carries PayPal credentials. -/
def statePayW : ServerState := ⟨[], [], [paypalCfgW], paypalCfgW, none⟩

/-- A server whose stored configuration carries mail credentials, with the
transport already derived at startup. -/
def stateMailW : ServerState := ⟨[], [], [mailCfgW], mailCfgW, some mailAuthW⟩

/-- A server configured for Stripe only. -/
def stateStripeW : ServerState :=
  { stateW with adminConfig := { emptyAdminConfig with stripeSecretKey := "sk_test" } }

/-- A redirect-flow booking body, as the capture endpoint's `bookingData`. -/
def bdW : BookingBody :=
  { name := some "A", email := some "a@x.com", service := some "Care",
    paymentMethod := some "paypal" }

/-- The spec scenario body: a card booking. -/
def cardBodyW : BookingBody :=
  { name := some "A", email := some "a@x.com", price := some 50,
    paymentMethod := some "card" }

/-- A direct submission that claims to be already paid but carries no
provider payment reference. -/
def paidBodyW : BookingBody :=
  { name := some "M", paymentMethod := some "card", status := some "Paid" }

/-- A booking submission that omits `paymentMethod` entirely. -/
def noMethodBodyW : BookingBody :=
  { name := some "N", email := some "n@x.com", service := some "Care" }

/-- An authorized configuration write whose credential fields are all
absent, keeping only an operator address. -/
def emptyCredsBodyW : ConfigBody :=
  { password := some "s3cret", adminEmail := some "op@x.com" }

/-- An authorized configuration write with a full set of fresh values. -/
def cfgBodyW : ConfigBody :=
  { password := some "s3cret", paypalClientId := some "cid2",
    paypalSecret := some "ps2", stripeSecretKey := some "sk2",
    adminEmail := some "admin@x.com", gmailUser := some "new@gmail.com",
    gmailAppPass := some "np" }

/-- The booking record produced by `cardBodyW`. -/
def bookingW : Booking := mkBooking cardBodyW

/-- A configuration write carrying a wrong password. -/
def wrongBodyW : ConfigBody := { password := some "wrong" }

/-!
Theorems.  One theorem per claim of the specification, with a helper lemma
for the floor form of `jsRound` and closed witness/counterexample theorems
at the concrete fixtures above.
-/

/-- The embedded `Math.round` agrees with the floor-ring rounding
`⌊q + 1/2⌋`, which `norm_num` can evaluate on literals. -/
theorem jsRound_eq (q : ℚ) : jsRound q = ⌊q + 1/2⌋ := by
  rw [jsRound, Rat.floor_def', Rat.floor_def]

/-- Claim C9: `GET /api/admin/config` performs no authentication check and
answers every caller with the complete in-memory configuration, its
PayPal secret, Stripe secret key and gmail app password included, leaving
the state unchanged.  The handler takes no credential at all. -/
theorem get_admin_config_no_auth (s : ServerState) :
    (getAdminConfigHandler s).1 = s ∧
    (getAdminConfigHandler s).2 = .ok (.config s.adminConfig) ∧
    ∃ c, (getAdminConfigHandler s).2 = .ok (.config c) ∧
      c.paypalSecret = s.adminConfig.paypalSecret ∧
      c.stripeSecretKey = s.adminConfig.stripeSecretKey ∧
      c.gmailAppPass = s.adminConfig.gmailAppPass :=
  ⟨rfl, rfl, s.adminConfig, rfl, rfl, rfl, rfl⟩

/-- Claim C7: a booking deletion, blog deletion or configuration write whose
supplied password differs from the configured admin password returns 403 and
leaves the whole store unchanged. -/
theorem wrong_secret_no_mutation
    (env : Env) (s : ServerState) (p : Option String) (body : ConfigBody)
    (i j : Nat) (hp : p ≠ env.adminPassword) (hb : body.password = p) :
    deleteBookingHandler env s i p = (s, .err 403 "Wrong password") ∧
    deleteBlogHandler env s j p = (s, .err 403 "Wrong password") ∧
    postAdminConfigHandler env s body = (s, .err 403 "Wrong password") := by
  refine ⟨?_, ?_, ?_⟩ <;>
    simp [deleteBookingHandler, deleteBlogHandler, postAdminConfigHandler,
      hb, hp]

/-- Claim C7 witness: the three operations at a concrete state with the
wrong password `"wrong"` against admin password `"s3cret"`. -/
theorem wrong_secret_no_mutation_witness :
    some "wrong" ≠ envW.adminPassword ∧
    deleteBookingHandler envW stateMailW 0 (some "wrong")
      = (stateMailW, .err 403 "Wrong password") ∧
    postAdminConfigHandler envW stateMailW wrongBodyW
      = (stateMailW, .err 403 "Wrong password") :=
  ⟨by decide,
   (wrong_secret_no_mutation envW stateMailW (some "wrong") wrongBodyW 0 0
      (by decide) rfl).1,
   (wrong_secret_no_mutation envW stateMailW (some "wrong") wrongBodyW 0 0
      (by decide) rfl).2.2⟩

/-- Claim C6: evaluating the second `sendEmails` variant on a booking whose
`paymentMethod` is absent, with mail fully configured: building the admin
mail evaluates `booking.paymentMethod.toUpperCase()` and the call throws a
TypeError to its caller, before either send is attempted. -/
theorem send_emails_throws_on_missing_payment_method :
    sendEmailsB mailCfgW (some mailAuthW) (mkBooking noMethodBodyW) false false
      = .error "TypeError: cannot read toUpperCase of undefined" := rfl

/-- Claim C3 counterexample: on a server with no mail transport configured,
a valid non-redirect (card) booking submission attempts zero email sends,
not one customer send and one operator send. -/
theorem unconfigured_mail_attempts_nothing :
    cardBodyW.paymentMethod = some "card" ∧
    (postBookingsHandler stateW cardBodyW false false).2.1 = [] := by decide

/-- Claim C3 as amended: when a mail transport exists and an operator
address is configured, a booking submission whose payment method is not
`'paypal'` attempts exactly the customer mail followed by the operator mail,
whatever the outcome of either send. -/
theorem configured_nonredirect_attempts_exactly_two
    (s : ServerState) (body : BookingBody) (t : MailAuth) (fc fa : Bool)
    (ht : s.transporter = some t) (ha : s.adminConfig.adminEmail ≠ "")
    (hm : body.paymentMethod ≠ some "paypal") :
    (postBookingsHandler s body fc fa).2.1
      = [customerMailA s.adminConfig (mkBooking body),
         adminMailA s.adminConfig (mkBooking body)] ∧
    (customerMailA s.adminConfig (mkBooking body)).toAddr
      = (mkBooking body).email ∧
    (adminMailA s.adminConfig (mkBooking body)).toAddr
      = some s.adminConfig.adminEmail := by
  refine ⟨?_, rfl, rfl⟩
  simp [postBookingsHandler, sendEmailsA, ht, ha, hm]

/-- Claim C3 witness: the card scenario on the mail-configured server, with
the customer send failing, still attempts both mails. -/
theorem configured_nonredirect_attempts_exactly_two_witness :
    stateMailW.transporter = some mailAuthW ∧
    stateMailW.adminConfig.adminEmail ≠ "" ∧
    (postBookingsHandler stateMailW cardBodyW true false).2.1
      = [customerMailA stateMailW.adminConfig (mkBooking cardBodyW),
         adminMailA stateMailW.adminConfig (mkBooking cardBodyW)] :=
  ⟨rfl, by decide,
   (configured_nonredirect_attempts_exactly_two stateMailW cardBodyW mailAuthW
      true false rfl (by decide) (by decide)).1⟩

/-- Claim C2 counterexample: `POST /api/bookings` saves the client-supplied
fields verbatim, so a submission claiming `status: 'Paid'` with no
`paymentId` persists a Paid booking whose provider payment reference is
null. -/
theorem post_bookings_paid_without_reference :
    ∃ b ∈ (postBookingsHandler stateW paidBodyW false false).1.bookings,
      b.status = "Paid" ∧ b.paymentId = none := by decide

/-- Claim C4 counterexample: an authorized configuration write that empties
the gmail credentials (keeping an operator address) leaves the previously
derived transporter cached — `updateTransporter` only rebuilds it when both
credentials are truthy — and a subsequent `sendEmails` call does not skip:
it attempts sends through the stale transporter holding the old
credentials. -/
theorem empty_credentials_keep_stale_transporter :
    (postAdminConfigHandler envW stateMailW emptyCredsBodyW).1.adminConfig.gmailUser = "" ∧
    (postAdminConfigHandler envW stateMailW emptyCredsBodyW).1.adminConfig.gmailAppPass = "" ∧
    (postAdminConfigHandler envW stateMailW emptyCredsBodyW).1.transporter
      = some mailAuthW ∧
    sendEmailsA (postAdminConfigHandler envW stateMailW emptyCredsBodyW).1.adminConfig
      (postAdminConfigHandler envW stateMailW emptyCredsBodyW).1.transporter
      bookingW false false ≠ [] := by decide

/-- Claim C4 as amended: after an authorized write whose credential fields
are all absent, Stripe requests fail unconfigured, PayPal resolves to no
environment when the fallback variable is also unset, but the transporter is
not re-derived: the previous one stays cached, and mail is silently skipped
only when no transporter had ever been derived. -/
theorem empty_credentials_write_behavior
    (env : Env) (s : ServerState) (body : ConfigBody) (amount : ℚ)
    (out : ProviderOutcome) (b : Booking) (fc fa : Bool)
    (hpw : body.password = env.adminPassword)
    (hgu : body.gmailUser = none) (hgp : body.gmailAppPass = none)
    (hpc : body.paypalClientId = none) (hps : body.paypalSecret = none)
    (hsk : body.stripeSecretKey = none)
    (hec : env.paypalClientId = none) :
    (postAdminConfigHandler env s body).1.transporter = s.transporter ∧
    paypalEnvironment env (postAdminConfigHandler env s body).1.adminConfig
      = none ∧
    stripeHandler (postAdminConfigHandler env s body).1 amount out
      = (none, .err 400 "Stripe not set") ∧
    ((postAdminConfigHandler env s body).1.transporter = none →
      sendEmailsA (postAdminConfigHandler env s body).1.adminConfig
        (postAdminConfigHandler env s body).1.transporter b fc fa = []) := by
  refine ⟨?_, ?_, ?_, ?_⟩
  · simp [postAdminConfigHandler, hpw, updateTransporter, mkConfig, hgu, hgp]
  · simp [postAdminConfigHandler, hpw, paypalEnvironment, jsOr, mkConfig,
      hpc, hps, hec, optFalsy]
  · simp [postAdminConfigHandler, hpw, stripeHandler, mkConfig, hsk]
  · intro hnone
    rw [hnone]
    rfl

/-- Claim C4 witness: the empty-credentials write on the mail-configured
server keeps the stale transporter, and PayPal and Stripe are left
unconfigured. -/
theorem empty_credentials_write_behavior_witness :
    emptyCredsBodyW.password = envW.adminPassword ∧
    (postAdminConfigHandler envW stateMailW emptyCredsBodyW).1.transporter
      = stateMailW.transporter ∧
    paypalEnvironment envW
      (postAdminConfigHandler envW stateMailW emptyCredsBodyW).1.adminConfig
      = none ∧
    stripeHandler (postAdminConfigHandler envW stateMailW emptyCredsBodyW).1
      1 (.ok "cs") = (none, .err 400 "Stripe not set") :=
  ⟨rfl,
   (empty_credentials_write_behavior envW stateMailW emptyCredsBodyW 1
      (.ok "cs") bookingW false false rfl rfl rfl rfl rfl rfl rfl).1,
   (empty_credentials_write_behavior envW stateMailW emptyCredsBodyW 1
      (.ok "cs") bookingW false false rfl rfl rfl rfl rfl rfl rfl).2.1,
   (empty_credentials_write_behavior envW stateMailW emptyCredsBodyW 1
      (.ok "cs") bookingW false false rfl rfl rfl rfl rfl rfl rfl).2.2.1⟩

/-- Claim C5: an authorized configuration write leaves exactly one persisted
record, equal to the submitted one; the in-memory cache becomes that same
record; neither depends on any prior state (no partial update); the
transporter re-derivation runs, rebuilding the transport from the new
credentials whenever both are present; and the caller sees success. -/
theorem admin_config_write_replaces_singleton
    (env : Env) (s s2 : ServerState) (body : ConfigBody)
    (hpw : body.password = env.adminPassword) :
    (postAdminConfigHandler env s body).1.configDB = [mkConfig body] ∧
    (postAdminConfigHandler env s body).1.configDB.length = 1 ∧
    (postAdminConfigHandler env s body).1.adminConfig = mkConfig body ∧
    (postAdminConfigHandler env s body).1.transporter
      = updateTransporter (mkConfig body) s.transporter ∧
    (postAdminConfigHandler env s body).1.configDB
      = (postAdminConfigHandler env s2 body).1.configDB ∧
    (postAdminConfigHandler env s body).1.adminConfig
      = (postAdminConfigHandler env s2 body).1.adminConfig ∧
    ((mkConfig body).gmailUser ≠ "" ∧ (mkConfig body).gmailAppPass ≠ "" →
      (postAdminConfigHandler env s body).1.transporter
        = some ⟨(mkConfig body).gmailUser, (mkConfig body).gmailAppPass⟩) ∧
    (postAdminConfigHandler env s body).2 = .ok .successTrue := by
  refine ⟨?_, ?_, ?_, ?_, ?_, ?_, ?_, ?_⟩
  case refine_7 =>
    intro h
    simp [postAdminConfigHandler, hpw, updateTransporter, h.1, h.2]
  all_goals simp [postAdminConfigHandler, hpw, updateTransporter]

/-- Claim C5 witness: a full configuration write on the mail-configured
server, checked against a fresh server to see the result carries no trace of
the prior record. -/
theorem admin_config_write_replaces_singleton_witness :
    cfgBodyW.password = envW.adminPassword ∧
    (postAdminConfigHandler envW stateMailW cfgBodyW).1.configDB
      = [mkConfig cfgBodyW] ∧
    (postAdminConfigHandler envW stateMailW cfgBodyW).1.adminConfig
      = (postAdminConfigHandler envW stateW cfgBodyW).1.adminConfig :=
  ⟨rfl,
   (admin_config_write_replaces_singleton envW stateMailW stateW cfgBodyW
      rfl).1,
   (admin_config_write_replaces_singleton envW stateMailW stateW cfgBodyW
      rfl).2.2.2.2.2.1⟩

/-- Claim C8 counterexample: with Stripe configured, an amount of `-5` major
units is neither rejected nor clamped: the processor is asked for an intent
of `-500` minor units, a negative amount. -/
theorem stripe_negative_amount_goes_through :
    stripeHandler stateStripeW (-5) (.ok "cs_test")
      = (some (-500), .ok (.clientSecret "cs_test")) ∧ (-500 : ℤ) < 0 := by
  refine ⟨?_, by norm_num⟩
  simp [stripeHandler, stateStripeW, stateW, emptyAdminConfig]
  rw [jsRound_eq, Int.floor_eq_iff]
  norm_num

/-- Claim C8 as amended: whenever a Stripe secret key is configured, the
intent request is issued with `Math.round(amount * 100)` minor units — so
`12.50` yields `1250` — with no validation of the amount beforehand. -/
theorem stripe_rounds_without_validation
    (s : ServerState) (amount : ℚ) (out : ProviderOutcome)
    (h : s.adminConfig.stripeSecretKey ≠ "") :
    (stripeHandler s amount out).1 = some (jsRound (amount * 100)) ∧
    jsRound ((25 : ℚ) / 2 * 100) = 1250 := by
  refine ⟨?_, ?_⟩
  · cases out <;> simp [stripeHandler, h]
  · rw [jsRound_eq, Int.floor_eq_iff]
    norm_num

/-- Claim C8 witness: the configured server asked for `$12.50` requests
`1250` minor units. -/
theorem stripe_rounds_without_validation_witness :
    stateStripeW.adminConfig.stripeSecretKey ≠ "" ∧
    (stripeHandler stateStripeW ((25 : ℚ) / 2) (.ok "cs")).1
      = some (jsRound ((25 : ℚ) / 2 * 100)) :=
  ⟨by decide,
   (stripe_rounds_without_validation stateStripeW ((25 : ℚ) / 2) (.ok "cs")
      (by decide)).1⟩

/-- Claim C1: on the capture endpoint (order id present, PayPal configured),
a non-`COMPLETED` capture status answers 400 and a thrown provider error
answers 500, in both cases with the store untouched, so no booking reaches
Paid; and when booking data accompanies the request, a booking is persisted
— always with status Paid and the order id as payment reference — exactly
when the capture reports `COMPLETED`. -/
theorem capture_paid_iff_completed
    (env : Env) (s : ServerState) (oid : String) (bd : Option BookingBody)
    (outcome : ProviderOutcome) (fc fa : Bool)
    (hoid : oid ≠ "")
    (henv : (paypalEnvironment env s.adminConfig).isSome = true) :
    (∀ st, outcome = .ok st → st ≠ "COMPLETED" →
      captureHandler env s (some oid) bd outcome fc fa
        = (s, [], .err 400 "Payment not completed")) ∧
    (∀ m, outcome = .err m →
      captureHandler env s (some oid) bd outcome fc fa
        = (s, [], .err 500 m)) ∧
    (∀ b, bd = some b →
      ((∃ nb, (captureHandler env s (some oid) bd outcome fc fa).1.bookings
          = s.bookings ++ [nb] ∧ nb.status = "Paid" ∧ nb.paymentId = some oid)
        ↔ outcome = .ok "COMPLETED")) := by
  obtain ⟨pe, hpe⟩ := Option.isSome_iff_exists.mp henv
  have hof : optFalsy (some oid) = false := by simp [optFalsy, hoid]
  refine ⟨?_, ?_, ?_⟩
  · intro st hst hne
    subst hst
    simp [captureHandler, hof, hpe, hne]
  · intro m hm
    subst hm
    simp [captureHandler, hof, hpe]
  · intro b hb
    subst hb
    cases outcome with
    | err m => simp [captureHandler, hof, hpe]
    | ok st =>
      by_cases hst : st = "COMPLETED"
      · subst hst
        have hbk : (captureHandler env s (some oid) (some b) (.ok "COMPLETED")
              fc fa).1.bookings = s.bookings ++ [captureBooking b oid] := by
          cases hsend : sendEmailsB s.adminConfig s.transporter
              (captureBooking b oid) fc fa with
          | ok atts => simp [captureHandler, hof, hpe, hsend]
          | error m => simp [captureHandler, hof, hpe, hsend]
        exact iff_of_true ⟨captureBooking b oid, hbk, rfl, rfl⟩ rfl
      · simp [captureHandler, hof, hpe, hst]

/-- Claim C1 witness: a `COMPLETED` capture with booking data on the
PayPal-configured server persists exactly one new booking, Paid and carrying
the order id. -/
theorem capture_paid_iff_completed_witness :
    "ORDER1" ≠ "" ∧
    (paypalEnvironment envW statePayW.adminConfig).isSome = true ∧
    (∃ nb, (captureHandler envW statePayW (some "ORDER1") (some bdW)
        (.ok "COMPLETED") false false).1.bookings
      = statePayW.bookings ++ [nb] ∧ nb.status = "Paid" ∧
        nb.paymentId = some "ORDER1") :=
  ⟨by decide, by decide,
   ((capture_paid_iff_completed envW statePayW "ORDER1" (some bdW)
        (.ok "COMPLETED") false false (by decide) (by decide)).2.2 bdW
      rfl).mpr rfl⟩

/-- Claim C2 as amended: every booking the capture endpoint itself persists
(the records appended past the prior length of the store) has status Paid
and a non-null provider payment reference; the direct-submission hole is the
counterexample theorem. -/
theorem capture_new_bookings_have_reference
    (env : Env) (s : ServerState) (orderID : Option String)
    (bd : Option BookingBody) (outcome : ProviderOutcome) (fc fa : Bool) :
    ∀ b ∈ ((captureHandler env s orderID bd outcome fc fa).1.bookings).drop
        s.bookings.length,
      b.status = "Paid" ∧ b.paymentId ≠ none := by
  intro b hb
  by_cases h1 : optFalsy orderID = true
  · simp [captureHandler, h1, List.drop_length] at hb
  · rw [Bool.not_eq_true] at h1
    cases hpe : paypalEnvironment env s.adminConfig with
    | none => simp [captureHandler, h1, hpe, List.drop_length] at hb
    | some pe =>
      cases outcome with
      | err m => simp [captureHandler, h1, hpe, List.drop_length] at hb
      | ok st =>
        by_cases hst : st = "COMPLETED"
        · subst hst
          cases bd with
          | none => simp [captureHandler, h1, hpe, List.drop_length] at hb
          | some bdd =>
            cases hsend : sendEmailsB s.adminConfig s.transporter
                (captureBooking bdd (orderID.getD "")) fc fa with
            | ok atts =>
              simp [captureHandler, h1, hpe, hsend, List.drop_left] at hb
              subst hb
              exact ⟨rfl, by simp [captureBooking, mkBooking]⟩
            | error m =>
              simp [captureHandler, h1, hpe, hsend, List.drop_left] at hb
              subst hb
              exact ⟨rfl, by simp [captureBooking, mkBooking]⟩
        · simp [captureHandler, h1, hpe, hst, List.drop_length] at hb

/-- Claim C2 witness: the booking persisted by the witness capture run has
status Paid and a non-null reference. -/
theorem capture_new_bookings_have_reference_witness :
    captureBooking bdW "ORDER1" ∈
      ((captureHandler envW statePayW (some "ORDER1") (some bdW)
          (.ok "COMPLETED") false false).1.bookings).drop
        statePayW.bookings.length ∧
    ((captureBooking bdW "ORDER1").status = "Paid" ∧
      (captureBooking bdW "ORDER1").paymentId ≠ none) :=
  ⟨by decide,
   capture_new_bookings_have_reference envW statePayW (some "ORDER1")
     (some bdW) (.ok "COMPLETED") false false (captureBooking bdW "ORDER1")
     (by decide)⟩

/-- Claim C10: a `COMPLETED` capture with no accompanying booking data
answers success while persisting nothing and attempting no mail: the state
comes back unchanged. -/
theorem capture_completed_without_booking_data
    (env : Env) (s : ServerState) (oid : String) (fc fa : Bool)
    (hoid : oid ≠ "")
    (henv : (paypalEnvironment env s.adminConfig).isSome = true) :
    captureHandler env s (some oid) none (.ok "COMPLETED") fc fa
      = (s, [], .ok (.captureSuccess "COMPLETED")) := by
  obtain ⟨pe, hpe⟩ := Option.isSome_iff_exists.mp henv
  simp [captureHandler, optFalsy, hoid, hpe]

/-- Claim C10 witness: the concrete dataless `COMPLETED` capture on the
PayPal-configured server. -/
theorem capture_completed_without_booking_data_witness :
    "ORDER1" ≠ "" ∧
    (paypalEnvironment envW statePayW.adminConfig).isSome = true ∧
    captureHandler envW statePayW (some "ORDER1") none (.ok "COMPLETED")
      false false = (statePayW, [], .ok (.captureSuccess "COMPLETED")) :=
  ⟨by decide, by decide,
   capture_completed_without_booking_data envW statePayW "ORDER1" false false
     (by decide) (by decide)⟩

end SassyNanny
